import Mathlib

/-!
Shallow embedding of src/src/core/device_local_agent.c, the Device.LocalAgent
handler of a USP device-management agent: identity resolution (OUI, serial
number, endpoint id), the cross-reboot state tracker, the deferred
exit/reboot scheduling and the dual-stack preference cache, together with
proofs of the specified properties.

The persisted key-value store is external and each of its calls fails
atomically, so every store call site receives a fault slot: some code means
the call fails with that store error and leaves the slot unchanged, none
means it succeeds.
-/

set_option maxHeartbeats 1000000
set_option linter.unnecessarySeqFocus false

namespace Obuspa

/-- Result codes modelling USP_ERR_OK, USP_ERR_INTERNAL_ERROR,
USP_ERR_INVALID_VALUE and the codes reported by failing persisted-store
calls. -/
inductive UspErr where
  | ok
  | internalError
  | invalidValue
  | storeFail (code : Nat)
  deriving DecidableEq, Repr

/-- Type exit_action_t from vendor_api.h: what to do when the agent finally
stops. -/
inductive exit_action_t where
  | kExitAction_Exit
  | kExitAction_Reboot
  | kExitAction_FactoryReset
  deriving DecidableEq, Repr

/-- Structure reboot_info_t from usp_api.h: cause of the last reboot and
associated data, cached at boot by PopulateRebootInfo. -/
structure reboot_info_t where
  cause : String
  command_key : String
  request_instance : Int
  cur_software_version : String
  last_software_version : String
  is_firmware_updated : Bool
  deriving DecidableEq, Repr

/-- The persisted USP database slots this file reads and writes, plus the
read-only parameters it consults. -/
structure Store where
  rebootCause : String             -- Internal.Reboot.Cause
  rebootCommandKey : String        -- Internal.Reboot.CommandKey
  rebootRequestInstance : Int      -- Internal.Reboot.RequestInstance
  lastSoftwareVersion : String     -- Internal.Reboot.LastSoftwareVersion
  softwareVersion : String         -- Device.DeviceInfo.SoftwareVersion (read-only here)
  dualStackPreference : String     -- Internal.DualStackPreference
  ouiOverride : Option String      -- explicit Device.DeviceInfo.ManufacturerOUI DB value, if any
  serialOverride : Option String   -- explicit Device.DeviceInfo.SerialNumber DB value, if any
  endpointIdOverride : Option String -- explicit Device.LocalAgent.EndpointID DB value, if any
  deriving DecidableEq, Repr

/-- File-scope mutable state of device_local_agent.c: the cached endpoint id
(line 64), the scheduled exit action (line 68), the cached reboot record
(line 91) and the cached dual-stack preference (line 96). -/
structure Agent where
  agent_endpoint_id : String
  scheduled_exit_action : exit_action_t
  reboot_info : reboot_info_t
  dual_stack_prefer_ipv6 : Bool
  deriving DecidableEq, Repr

/-- String constant local_reboot_cause_str (line 77). -/
def local_reboot_cause_str : String := "LocalReboot"

/-- The INVALID sentinel used for the request instance of a reboot that was
not initiated by an operation. -/
def INVALID : Int := -1

/-- Value of reboot_info after the memset in DEVICE_LOCAL_AGENT_Init
(line 132). -/
def zeroRebootInfo : reboot_info_t :=
  { cause := "", command_key := "", request_instance := 0,
    cur_software_version := "", last_software_version := "",
    is_firmware_updated := false }

/-- File-scope initializers: empty cached endpoint id, kExitAction_Exit,
zeroed reboot record, prefer IPv4. -/
def initAgent : Agent :=
  { agent_endpoint_id := "", scheduled_exit_action := .kExitAction_Exit,
    reboot_info := zeroRebootInfo, dual_stack_prefer_ipv6 := false }

/-- One persisted-store read: fault = some code means the call fails with
that store error, none means it returns the stored value. -/
def storeGet {α : Type} (fault : Option Nat) (v : α) : Except UspErr α :=
  match fault with
  | some code => .error (.storeFail code)
  | none => .ok v

/-- One persisted-store write attempt: fault = some code means the call
fails atomically with that store error and the slot keeps its old value. -/
def storeSet (fault : Option Nat) : Except UspErr Unit :=
  match fault with
  | some code => .error (.storeFail code)
  | none => .ok ()

/-- Fault plan for PopulateRebootInfo: one slot per store call site, in
source order (lines 797, 810, 819, 832, 841, 851, 860, 867, 881). -/
structure PopFail where
  getCause : Option Nat
  setCause : Option Nat
  getCommandKey : Option Nat
  setCommandKey : Option Nat
  getRequestInstance : Option Nat
  setRequestInstance : Option Nat
  getLastVersion : Option Nat
  getCurVersion : Option Nat
  setLastVersion : Option Nat
  deriving DecidableEq, Repr

/-- Fault plan under which every store call of PopulateRebootInfo succeeds. -/
def noPopFail : PopFail :=
  { getCause := none, setCause := none, getCommandKey := none,
    setCommandKey := none, getRequestInstance := none,
    setRequestInstance := none, getLastVersion := none,
    getCurVersion := none, setLastVersion := none }

/-- Return of PopulateRebootInfo: the USP error code, the reboot_info global
as left by the call, and the store as left by the call. -/
structure PopResult where
  err : UspErr
  info : reboot_info_t
  store : Store
  deriving DecidableEq, Repr

/-- PopulateRebootInfo (lines 785-895): cache the cause, command key,
request instance and software versions of the last reboot into reboot_info,
then re-prime the store with the defaults for the next boot. The embedding
is faithful to the source, including its two discarded return values: the
command-key reset write (line 832) and the request-instance reset write
(line 851) are invoked without assigning err, so the following
error check tests the preceding successful get and never fires; a failure
of either write is therefore ignored and the slot keeps its old value. -/
def PopulateRebootInfo (fp : PopFail) (info0 : reboot_info_t) (s0 : Store) : PopResult :=
  -- line 793: reboot_info.is_firmware_updated = false
  let info1 := { info0 with is_firmware_updated := false }
  -- line 797: read Internal.Reboot.Cause
  match storeGet fp.getCause s0.rebootCause with
  | .error e => { err := e, info := info1, store := s0 }
  | .ok lastCause =>
    -- line 804: cache the cause of the last reboot
    let info2 := { info1 with cause := lastCause }
    -- lines 807-815: rewrite the cause to the local default if it changed
    let step1 : Except UspErr Store :=
      if lastCause = local_reboot_cause_str then .ok s0
      else
        match storeSet fp.setCause with
        | .error e => .error e
        | .ok _ => .ok { s0 with rebootCause := local_reboot_cause_str }
    match step1 with
    | .error e => { err := e, info := info2, store := s0 }
    | .ok s1 =>
      -- line 819: read Internal.Reboot.CommandKey
      match storeGet fp.getCommandKey s1.rebootCommandKey with
      | .error e => { err := e, info := info2, store := s1 }
      | .ok lastKey =>
        -- line 826: cache the command key of the last reboot
        let info3 := { info2 with command_key := lastKey }
        -- lines 829-837: clear the command key; the source discards the
        -- return value of this write, so its failure is ignored
        let s2 :=
          if lastKey = "" then s1
          else
            match storeSet fp.setCommandKey with
            | .error _ => s1
            | .ok _ => { s1 with rebootCommandKey := "" }
        -- line 841: read Internal.Reboot.RequestInstance
        match storeGet fp.getRequestInstance s2.rebootRequestInstance with
        | .error e => { err := e, info := info3, store := s2 }
        | .ok lastInst =>
          let info4 := { info3 with request_instance := lastInst }
          -- lines 848-856: reset the request instance; the source discards
          -- the return value of this write, so its failure is ignored
          let s3 :=
            if lastInst = INVALID then s2
            else
              match storeSet fp.setRequestInstance with
              | .error _ => s2
              | .ok _ => { s2 with rebootRequestInstance := INVALID }
          -- line 860: read Internal.Reboot.LastSoftwareVersion
          match storeGet fp.getLastVersion s3.lastSoftwareVersion with
          | .error e => { err := e, info := info4, store := s3 }
          | .ok lastVer =>
            -- line 867: read Device.DeviceInfo.SoftwareVersion
            match storeGet fp.getCurVersion s3.softwareVersion with
            | .error e => { err := e, info := info4, store := s3 }
            | .ok curVer =>
              -- lines 873-877: cache both versions, falling back to the
              -- current version when no last version was recorded
              let info5 := { info4 with
                cur_software_version := curVer,
                last_software_version := if lastVer = "" then curVer else lastVer }
              -- line 881: persist the current version for the next cycle
              match storeSet fp.setLastVersion with
              | .error e => { err := e, info := info5, store := s3 }
              | .ok _ =>
                let s4 := { s3 with lastSoftwareVersion := curVer }
                -- lines 889-892: firmware updated iff the recorded last
                -- version is non-empty and differs from the current one
                let info6 :=
                  if lastVer ≠ curVer ∧ lastVer ≠ "" then
                    { info5 with is_firmware_updated := true }
                  else info5
                { err := .ok, info := info6, store := s4 }

/-- Fault plan for DEVICE_LOCAL_AGENT_ScheduleReboot: one slot per store
write, in source order (lines 377, 384, 391). -/
structure SchedFail where
  setCause : Option Nat
  setCommandKey : Option Nat
  setRequestInstance : Option Nat
  deriving DecidableEq, Repr

/-- Fault plan under which every store write of
DEVICE_LOCAL_AGENT_ScheduleReboot succeeds. -/
def noSchedFail : SchedFail :=
  { setCause := none, setCommandKey := none, setRequestInstance := none }

/-- Return of DEVICE_LOCAL_AGENT_ScheduleReboot: error code, the store, the
file-scope state, and whether MTP_EXEC_ScheduleExit was signalled. -/
structure SchedResult where
  err : UspErr
  store : Store
  agent : Agent
  signalled : Bool
  deriving DecidableEq, Repr

/-- DEVICE_LOCAL_AGENT_ScheduleReboot (lines 372-400): persist the reboot
cause, the command key and the request instance in that order, aborting on
the first store failure; only after all three writes succeed is the exit
action recorded in scheduled_exit_action and MTP_EXEC_ScheduleExit
signalled. -/
def DEVICE_LOCAL_AGENT_ScheduleReboot (fp : SchedFail) (exit_action : exit_action_t)
    (reboot_cause command_key : String) (request_instance : Int)
    (s0 : Store) (a : Agent) : SchedResult :=
  match storeSet fp.setCause with
  | .error e => { err := e, store := s0, agent := a, signalled := false }
  | .ok _ =>
    let s1 := { s0 with rebootCause := reboot_cause }
    match storeSet fp.setCommandKey with
    | .error e => { err := e, store := s1, agent := a, signalled := false }
    | .ok _ =>
      let s2 := { s1 with rebootCommandKey := command_key }
      match storeSet fp.setRequestInstance with
      | .error e => { err := e, store := s2, agent := a, signalled := false }
      | .ok _ =>
        let s3 := { s2 with rebootRequestInstance := request_instance }
        { err := .ok, store := s3,
          agent := { a with scheduled_exit_action := exit_action },
          signalled := true }

/-- DEVICE_LOCAL_AGENT_GetExitAction (lines 416-419). -/
def DEVICE_LOCAL_AGENT_GetExitAction (a : Agent) : exit_action_t :=
  a.scheduled_exit_action

/-- DEVICE_LOCAL_AGENT_GetEndpointID (lines 433-436). -/
def DEVICE_LOCAL_AGENT_GetEndpointID (a : Agent) : String :=
  a.agent_endpoint_id

/-- DEVICE_LOCAL_AGENT_GetRebootInfo (lines 449-452). -/
def DEVICE_LOCAL_AGENT_GetRebootInfo (a : Agent) : reboot_info_t :=
  a.reboot_info

/-- DEVICE_LOCAL_AGENT_GetDualStackPreference (lines 466-469). -/
def DEVICE_LOCAL_AGENT_GetDualStackPreference (a : Agent) : Bool :=
  a.dual_stack_prefer_ipv6

/-- ScheduleReboot, the sync-operation handler registered for
Device.Reboot() (lines 592-602): schedule a reboot with the RemoteReboot
cause and the INVALID request instance. -/
def ScheduleReboot (fp : SchedFail) (command_key : String) (s : Store) (a : Agent) :
    SchedResult :=
  DEVICE_LOCAL_AGENT_ScheduleReboot fp .kExitAction_Reboot "RemoteReboot" command_key
    INVALID s a

/-- ScheduleFactoryReset, the sync-operation handler registered for
Device.FactoryReset() (lines 620-630): schedule a factory reset with the
RemoteFactoryReset cause and the INVALID request instance. -/
def ScheduleFactoryReset (fp : SchedFail) (command_key : String) (s : Store) (a : Agent) :
    SchedResult :=
  DEVICE_LOCAL_AGENT_ScheduleReboot fp .kExitAction_FactoryReset "RemoteFactoryReset"
    command_key INVALID s a

/-- Validate_DualStackPreference (lines 484-495): only the literal strings
IPv4 and IPv6 are accepted. -/
def Validate_DualStackPreference (value : String) : UspErr :=
  if value = "IPv4" ∨ value = "IPv6" then .ok
  else .invalidValue

/-- NotifyChange_DualStackPreference (lines 509-524): refresh the cached
dual_stack_prefer_ipv6 from the new value; anything other than IPv6 maps to
false. -/
def NotifyChange_DualStackPreference (value : String) (a : Agent) : Agent :=
  if value = "IPv6" then { a with dual_stack_prefer_ipv6 := true }
  else { a with dual_stack_prefer_ipv6 := false }

/-- Modelled from the spec: the data-model engine (outside src/) applies a
write to a DB parameter registered with a validator and a notifier (line 176
registers Internal.DualStackPreference with Validate_DualStackPreference and
NotifyChange_DualStackPreference) by running the validator first and only on
success persisting the value and invoking the notifier; on a validation
failure nothing is applied or persisted. -/
def Write_DualStackPreference (value : String) (s : Store) (a : Agent) :
    UspErr × Store × Agent :=
  match Validate_DualStackPreference value with
  | .ok => (.ok, { s with dualStackPreference := value },
            NotifyChange_DualStackPreference value a)
  | e => (e, s, a)

/-- Environment variables consulted by the identity defaults:
USP_BOARD_OUI (line 650) and USP_BOARD_SERIAL (line 700). -/
structure Env where
  usp_board_oui : Option String
  usp_board_serial : Option String
  deriving DecidableEq, Repr

/-- GetDefaultOUI (lines 645-661): the environment override when set and
non-empty, otherwise the compile-time VENDOR_OUI. -/
def GetDefaultOUI (env : Env) (vendor_oui : String) : String :=
  match env.usp_board_oui with
  | some p => if p ≠ "" then p else vendor_oui
  | none => vendor_oui

/-- Length in bytes of a MAC address (MAC_ADDR_LEN). -/
def MAC_ADDR_LEN : Nat := 6

/-- Modelled from the spec: TEXT_UTILS_ValueToHexDigit lives in
src/core/text_utils.c, which is not part of the sources here. The spec fixes
the mapping as one hex digit per 4-bit value in a fixed (upper) case, as in
its example where MAC AA:BB:CC:00:11:22 encodes to the string
AABBCC001122. -/
def TEXT_UTILS_ValueToHexDigit (nibble : Nat) : Char :=
  if nibble < 10 then Char.ofNat (Char.toNat '0' + nibble)
  else if nibble < 16 then Char.ofNat (Char.toNat 'A' + (nibble - 10))
  else 'X'

/-- Conversion loop of lines 717-724: two hex digits per MAC octet, the
most-significant nibble first. -/
def macDigits : List Nat → List Char
  | [] => []
  | val :: rest =>
    TEXT_UTILS_ValueToHexDigit ((val &&& 0xF0) >>> 4) ::
    TEXT_UTILS_ValueToHexDigit (val &&& 0x0F) :: macDigits rest

/-- MAC-address fallback of GetDefaultSerialNumber (lines 707-724): mac is
the result of the external nu_macaddr_wan_macaddr call. -/
def serialFromMac (mac : Except UspErr (List Nat)) : Except UspErr String :=
  match mac with
  | .error e => .error e
  | .ok bytes => .ok (String.mk (macDigits bytes))

/-- GetDefaultSerialNumber (lines 676-727). The vendor hook and the WAN MAC
address are external inputs: cb is the registered
get_agent_serial_number_cb together with the value it would produce (none
when unregistered), env carries USP_BOARD_SERIAL, mac the result of
nu_macaddr_wan_macaddr. A failing vendor hook is mapped to
USP_ERR_INTERNAL_ERROR. -/
def GetDefaultSerialNumber (cb : Option (Except UspErr String)) (env : Env)
    (mac : Except UspErr (List Nat)) : Except UspErr String :=
  match cb with
  | some (Except.error _) => .error .internalError
  | some (Except.ok v) => .ok v
  | none =>
    match env.usp_board_serial with
    | some p => if p ≠ "" then .ok p else serialFromMac mac
    | none => serialFromMac mac

/-- GetDefaultEndpointID (lines 745-769): the vendor hook when registered
(its failure maps to USP_ERR_INTERNAL_ERROR), otherwise the literal pattern
os:: followed by the OUI, a dash and the serial number. The source asserts
that the serial number is non-empty before synthesizing. -/
def GetDefaultEndpointID (cb : Option (Except UspErr String))
    (oui serial_number : String) : Except UspErr String :=
  match cb with
  | some (Except.error _) => .error .internalError
  | some (Except.ok v) => .ok v
  | none => .ok ("os::" ++ oui ++ "-" ++ serial_number)

/-- DEVICE_LOCAL_AGENT_SetDefaults (lines 199-303), with REMOVE_DEVICE_INFO
not defined: compute the default OUI, serial number and endpoint id,
re-register them as the DB defaults, then read back the actual values (the
explicit DB value when one exists, the freshly registered default
otherwise) and cache the final endpoint id in agent_endpoint_id. ser_cb and
epid_cb are the vendor hooks, vendor_oui the compile-time VENDOR_OUI, mac
the WAN MAC address. -/
def DEVICE_LOCAL_AGENT_SetDefaults (ser_cb epid_cb : Option (Except UspErr String))
    (env : Env) (vendor_oui : String) (mac : Except UspErr (List Nat))
    (s : Store) (a : Agent) : Except UspErr Agent :=
  let default_oui := GetDefaultOUI env vendor_oui
  let oui := s.ouiOverride.getD default_oui
  match GetDefaultSerialNumber ser_cb env mac with
  | .error e => .error e
  | .ok default_serial =>
    let serial_number := s.serialOverride.getD default_serial
    match GetDefaultEndpointID epid_cb oui serial_number with
    | .error e => .error e
    | .ok default_epid =>
      .ok { a with agent_endpoint_id := s.endpointIdOverride.getD default_epid }

/-- Fault plan for DEVICE_LOCAL_AGENT_Start: the plan of the nested
PopulateRebootInfo call plus the dual-stack preference read (line 327). -/
structure StartFail where
  pop : PopFail
  getDualStack : Option Nat
  deriving DecidableEq, Repr

/-- DEVICE_LOCAL_AGENT_Start (lines 316-337). Faithful to the source: the
return value of the PopulateRebootInfo call at line 324 is discarded, so a
failed reboot-state initialization does not make startup fail. -/
def DEVICE_LOCAL_AGENT_Start (fp : StartFail) (s0 : Store) (a0 : Agent) :
    UspErr × Store × Agent :=
  let r := PopulateRebootInfo fp.pop a0.reboot_info s0
  let s1 := r.store
  let a1 := { a0 with reboot_info := r.info }
  match storeGet fp.getDualStack s1.dualStackPreference with
  | .error e => (e, s1, a1)
  | .ok value => (.ok, s1, NotifyChange_DualStackPreference value a1)

/-- Operations of the component that the data-model engine can invoke after
startup: the two registered sync-operation handlers, a validated write to
Internal.DualStackPreference, and a run of PopulateRebootInfo. -/
inductive AgentOp where
  | opReboot (fp : SchedFail) (command_key : String)
  | opFactoryReset (fp : SchedFail) (command_key : String)
  | opWritePref (value : String)
  | opPopulate (fp : PopFail)
  deriving DecidableEq, Repr

/-- Small-step semantics of the operations over the store and the file-scope
state. -/
def stepOp (st : Store × Agent) (op : AgentOp) : Store × Agent :=
  match op with
  | .opReboot fp ck =>
    let r := ScheduleReboot fp ck st.1 st.2
    (r.store, r.agent)
  | .opFactoryReset fp ck =>
    let r := ScheduleFactoryReset fp ck st.1 st.2
    (r.store, r.agent)
  | .opWritePref v =>
    let r := Write_DualStackPreference v st.1 st.2
    (r.2.1, r.2.2)
  | .opPopulate fp =>
    let r := PopulateRebootInfo fp st.2.reboot_info st.1
    (r.store, { st.2 with reboot_info := r.info })

/-- Sample store used by the concrete witnesses and counterexamples: the
previous cycle ended in a remote reboot commanded with key123 by request 5,
and the firmware moved from 1.0 to 1.1. -/
def sampleStore : Store :=
  { rebootCause := "RemoteReboot", rebootCommandKey := "key123",
    rebootRequestInstance := 5, lastSoftwareVersion := "1.0",
    softwareVersion := "1.1", dualStackPreference := "IPv4",
    ouiOverride := none, serialOverride := none, endpointIdOverride := none }

/-- Fault plan where only the command-key reset write of PopulateRebootInfo
fails. -/
def fpCmdKeyWriteFails : PopFail := { noPopFail with setCommandKey := some 3 }

/-- Fault plan where only the initial cause read of PopulateRebootInfo
fails. -/
def fpCauseReadFails : PopFail := { noPopFail with getCause := some 7 }


/-- Agent state in which a reboot has already been scheduled. -/
def agentRebootPending : Agent :=
  { initAgent with scheduled_exit_action := .kExitAction_Reboot }

/-- First-boot variant of the sample store: no last software version was
ever recorded. -/
def sampleStoreFirstBoot : Store := { sampleStore with lastSoftwareVersion := "" }

/-- Environment with neither identity override set. -/
def envNone : Env := { usp_board_oui := none, usp_board_serial := none }

/-- The MAC address of the example in the spec, AA:BB:CC:00:11:22. -/
def sampleMac : List Nat := [0xAA, 0xBB, 0xCC, 0x00, 0x11, 0x22]

/-- Full description of a fault-free run of PopulateRebootInfo: it succeeds,
the record snapshots the previous cycle, and the store is re-primed with the
next-cycle defaults. -/
theorem PopulateRebootInfo_noPopFail (info0 : reboot_info_t) (s : Store) :
    PopulateRebootInfo noPopFail info0 s =
      { err := UspErr.ok,
        info := { cause := s.rebootCause,
                  command_key := s.rebootCommandKey,
                  request_instance := s.rebootRequestInstance,
                  cur_software_version := s.softwareVersion,
                  last_software_version :=
                    if s.lastSoftwareVersion = "" then s.softwareVersion
                    else s.lastSoftwareVersion,
                  is_firmware_updated :=
                    decide (s.lastSoftwareVersion ≠ s.softwareVersion ∧
                            s.lastSoftwareVersion ≠ "") },
        store := { s with rebootCause := local_reboot_cause_str,
                          rebootCommandKey := "",
                          rebootRequestInstance := INVALID,
                          lastSoftwareVersion := s.softwareVersion } } := by
  rcases s with ⟨c, k, ri, lv, sv, dsp, o1, o2, o3⟩
  simp only [PopulateRebootInfo, noPopFail, storeGet, storeSet]
  split_ifs <;> simp_all <;> split_ifs <;> simp_all

/-- C1: the claim states that every persisted-store failure during
PopulateRebootInfo aborts initialization at that step and propagates to the
caller of startup. The code violates this twice: a failure of the
command-key reset write is discarded inside PopulateRebootInfo (line 832,
err not reassigned), which still returns USP_ERR_OK, and
DEVICE_LOCAL_AGENT_Start discards the return value of PopulateRebootInfo
(line 324), returning USP_ERR_OK even when the very first store read of the
initialization fails. -/
theorem C1_startup_swallows_store_failures :
    (PopulateRebootInfo fpCmdKeyWriteFails zeroRebootInfo sampleStore).err = UspErr.ok ∧
    (PopulateRebootInfo fpCauseReadFails zeroRebootInfo sampleStore).err =
      UspErr.storeFail 7 ∧
    (DEVICE_LOCAL_AGENT_Start { pop := fpCauseReadFails, getDualStack := none }
        sampleStore initAgent).1 = UspErr.ok := by
  refine ⟨by decide, by decide, by decide⟩

/-- C3: the claim states that a successful PopulateRebootInfo leaves the
store holding the next-cycle defaults. At a store whose command-key reset
write fails, PopulateRebootInfo returns USP_ERR_OK (the write error is
discarded at line 832) yet the persisted command key keeps its old non-empty
value instead of the empty default. -/
theorem C3_defaults_can_be_violated_despite_success :
    (PopulateRebootInfo fpCmdKeyWriteFails zeroRebootInfo sampleStore).err = UspErr.ok ∧
    (PopulateRebootInfo fpCmdKeyWriteFails zeroRebootInfo sampleStore).store.rebootCommandKey
      = "key123" := by
  refine ⟨by decide, by decide⟩

/-- C4: a (fault-free, hence successful) run of PopulateRebootInfo reports a
firmware update exactly when a last software version was recorded and it
differs from the current one, and when none was recorded the cached last
version falls back to the current one. -/
theorem C4_firmware_update_detection (info0 : reboot_info_t) (s : Store) :
    (PopulateRebootInfo noPopFail info0 s).err = UspErr.ok ∧
    ((PopulateRebootInfo noPopFail info0 s).info.is_firmware_updated = true ↔
      (s.lastSoftwareVersion ≠ "" ∧
       s.lastSoftwareVersion ≠ s.softwareVersion)) ∧
    (s.lastSoftwareVersion = "" →
      (PopulateRebootInfo noPopFail info0 s).info.last_software_version =
        s.softwareVersion) := by
  rw [PopulateRebootInfo_noPopFail]
  refine ⟨rfl, by simp [and_comm], ?_⟩
  intro hl
  simp [hl]

/-- Witness for C4 at the spec examples: last version 1.0 persisted and
current version 1.1 count as a firmware update, and a first boot with no
recorded last version falls back to the current version. -/
theorem C4_firmware_update_detection_witness :
    ((PopulateRebootInfo noPopFail zeroRebootInfo sampleStore).info.is_firmware_updated = true ↔
      (sampleStore.lastSoftwareVersion ≠ "" ∧
       sampleStore.lastSoftwareVersion ≠ sampleStore.softwareVersion)) ∧
    (PopulateRebootInfo noPopFail zeroRebootInfo
        sampleStoreFirstBoot).info.last_software_version =
      sampleStoreFirstBoot.softwareVersion :=
  ⟨(C4_firmware_update_detection zeroRebootInfo sampleStore).2.1,
   (C4_firmware_update_detection zeroRebootInfo sampleStoreFirstBoot).2.2 rfl⟩

/-- C7: two fault-free runs of PopulateRebootInfo in sequence, with no
intervening exit scheduling and the software version unchanged, give on the
second run the local-reboot cause, the none-sentinel request instance and no
firmware update. -/
theorem C7_double_initialize_yields_defaults (info0 info1 : reboot_info_t) (s : Store) :
    (PopulateRebootInfo noPopFail info1
        (PopulateRebootInfo noPopFail info0 s).store).info.cause = local_reboot_cause_str ∧
    (PopulateRebootInfo noPopFail info1
        (PopulateRebootInfo noPopFail info0 s).store).info.request_instance = INVALID ∧
    (PopulateRebootInfo noPopFail info1
        (PopulateRebootInfo noPopFail info0 s).store).info.is_firmware_updated = false := by
  rw [PopulateRebootInfo_noPopFail, PopulateRebootInfo_noPopFail]
  simp



/-- C2: the DEVICE_LOCAL_AGENT_ScheduleReboot contract. When all three
writes succeed, the cause, command key and request instance are persisted,
the action is recorded and the exit is signalled; the first failing write
aborts with the error the store reported, with the earlier writes already
applied (in source order) and scheduled_exit_action untouched and no signal
sent. -/
theorem C2_schedule_exit_contract (fp : SchedFail) (act : exit_action_t)
    (cause ck : String) (ri : Int) (s : Store) (a : Agent) :
    (fp.setCause = none → fp.setCommandKey = none → fp.setRequestInstance = none →
      DEVICE_LOCAL_AGENT_ScheduleReboot fp act cause ck ri s a =
        { err := UspErr.ok,
          store := { s with rebootCause := cause, rebootCommandKey := ck,
                            rebootRequestInstance := ri },
          agent := { a with scheduled_exit_action := act },
          signalled := true }) ∧
    (∀ n, fp.setCause = some n →
      DEVICE_LOCAL_AGENT_ScheduleReboot fp act cause ck ri s a =
        { err := UspErr.storeFail n, store := s, agent := a, signalled := false }) ∧
    (∀ n, fp.setCause = none → fp.setCommandKey = some n →
      DEVICE_LOCAL_AGENT_ScheduleReboot fp act cause ck ri s a =
        { err := UspErr.storeFail n, store := { s with rebootCause := cause },
          agent := a, signalled := false }) ∧
    (∀ n, fp.setCause = none → fp.setCommandKey = none → fp.setRequestInstance = some n →
      DEVICE_LOCAL_AGENT_ScheduleReboot fp act cause ck ri s a =
        { err := UspErr.storeFail n,
          store := { s with rebootCause := cause, rebootCommandKey := ck },
          agent := a, signalled := false }) := by
  rcases fp with ⟨f1, f2, f3⟩
  refine ⟨?_, ?_, ?_, ?_⟩
  · intro h1 h2 h3
    subst h1; subst h2; subst h3
    simp [DEVICE_LOCAL_AGENT_ScheduleReboot, storeSet]
  · intro n h1
    subst h1
    simp [DEVICE_LOCAL_AGENT_ScheduleReboot, storeSet]
  · intro n h1 h2
    subst h1; subst h2
    simp [DEVICE_LOCAL_AGENT_ScheduleReboot, storeSet]
  · intro n h1 h2 h3
    subst h1; subst h2; subst h3
    simp [DEVICE_LOCAL_AGENT_ScheduleReboot, storeSet]

/-- Witness for C2: a failing command-key write aborts with its store error,
the cause write already applied, the exit action untouched and no signal. -/
theorem C2_schedule_exit_contract_witness :
    DEVICE_LOCAL_AGENT_ScheduleReboot
        { setCause := none, setCommandKey := some 5, setRequestInstance := none }
        exit_action_t.kExitAction_Reboot "RemoteReboot" "key123" 5 sampleStore initAgent =
      { err := UspErr.storeFail 5,
        store := { sampleStore with rebootCause := "RemoteReboot" },
        agent := initAgent, signalled := false } :=
  (C2_schedule_exit_contract
      { setCause := none, setCommandKey := some 5, setRequestInstance := none }
      exit_action_t.kExitAction_Reboot "RemoteReboot" "key123" 5 sampleStore
      initAgent).2.2.1 5 rfl rfl

/-- C6 counterexample: from a state whose slot already holds Reboot, a
successful call of the schedule-exit entry point with the plain-exit action
returns the slot to Exit, so the slot does transition back. -/
theorem C6_counterexample_slot_returns_to_exit :
    agentRebootPending.scheduled_exit_action = exit_action_t.kExitAction_Reboot ∧
    (DEVICE_LOCAL_AGENT_ScheduleReboot noSchedFail exit_action_t.kExitAction_Exit
        local_reboot_cause_str "" INVALID sampleStore agentRebootPending).err = UspErr.ok ∧
    (DEVICE_LOCAL_AGENT_ScheduleReboot noSchedFail exit_action_t.kExitAction_Exit
        local_reboot_cause_str "" INVALID sampleStore agentRebootPending).agent.scheduled_exit_action
      = exit_action_t.kExitAction_Exit := by
  refine ⟨rfl, by decide, by decide⟩

/-- Any single operation of the post-startup alphabet keeps the exit slot
away from Exit once it left Exit. -/
theorem stepOp_keeps_slot_nonexit (st : Store × Agent) (op : AgentOp)
    (h : st.2.scheduled_exit_action ≠ exit_action_t.kExitAction_Exit) :
    (stepOp st op).2.scheduled_exit_action ≠ exit_action_t.kExitAction_Exit := by
  rcases op with ⟨fp, ck⟩ | ⟨fp, ck⟩ | v | fp
  · rcases fp with ⟨f1, f2, f3⟩
    cases f1 <;> cases f2 <;> cases f3 <;>
      simp_all [stepOp, ScheduleReboot, DEVICE_LOCAL_AGENT_ScheduleReboot, storeSet]
  · rcases fp with ⟨f1, f2, f3⟩
    cases f1 <;> cases f2 <;> cases f3 <;>
      simp_all [stepOp, ScheduleFactoryReset, DEVICE_LOCAL_AGENT_ScheduleReboot, storeSet]
  · simp only [stepOp, Write_DualStackPreference]
    rcases hv : Validate_DualStackPreference v <;>
      simp_all [NotifyChange_DualStackPreference] <;> split_ifs <;> simp_all
  · simpa [stepOp] using h

/-- C6 amended: the slot starts at Exit; the dual-stack write and
PopulateRebootInfo never touch it; the registered Reboot and FactoryReset
handlers either leave it unchanged (on a store failure) or set it to Reboot
resp. FactoryReset; consequently no sequence of post-startup operations of
this alphabet brings it back to Exit once it left Exit, and GetExitAction
reads exactly the slot. The schedule-exit entry point itself, however, sets
the slot to whatever action it is passed, including Exit, as the
counterexample shows. -/
theorem C6_exit_decision_state_machine :
    initAgent.scheduled_exit_action = exit_action_t.kExitAction_Exit ∧
    (∀ (st : Store × Agent) (v : String) (fp : PopFail),
      (stepOp st (AgentOp.opWritePref v)).2.scheduled_exit_action =
        st.2.scheduled_exit_action ∧
      (stepOp st (AgentOp.opPopulate fp)).2.scheduled_exit_action =
        st.2.scheduled_exit_action) ∧
    (∀ (st : Store × Agent) (fp : SchedFail) (ck : String),
      ((stepOp st (AgentOp.opReboot fp ck)).2.scheduled_exit_action =
          st.2.scheduled_exit_action ∨
       (stepOp st (AgentOp.opReboot fp ck)).2.scheduled_exit_action =
          exit_action_t.kExitAction_Reboot) ∧
      ((stepOp st (AgentOp.opFactoryReset fp ck)).2.scheduled_exit_action =
          st.2.scheduled_exit_action ∨
       (stepOp st (AgentOp.opFactoryReset fp ck)).2.scheduled_exit_action =
          exit_action_t.kExitAction_FactoryReset)) ∧
    (∀ (ops : List AgentOp) (st : Store × Agent),
      st.2.scheduled_exit_action ≠ exit_action_t.kExitAction_Exit →
      (ops.foldl stepOp st).2.scheduled_exit_action ≠ exit_action_t.kExitAction_Exit) ∧
    (∀ a : Agent, DEVICE_LOCAL_AGENT_GetExitAction a = a.scheduled_exit_action) := by
  refine ⟨rfl, ?_, ?_, ?_, fun _ => rfl⟩
  · intro st v fp
    constructor
    · simp only [stepOp, Write_DualStackPreference]
      rcases hv : Validate_DualStackPreference v <;>
        simp_all [NotifyChange_DualStackPreference] <;> split_ifs <;> simp_all
    · simp [stepOp]
  · intro st fp ck
    rcases fp with ⟨f1, f2, f3⟩
    constructor
    · cases f1 <;> cases f2 <;> cases f3 <;>
        simp_all [stepOp, ScheduleReboot, DEVICE_LOCAL_AGENT_ScheduleReboot, storeSet]
    · cases f1 <;> cases f2 <;> cases f3 <;>
        simp_all [stepOp, ScheduleFactoryReset, DEVICE_LOCAL_AGENT_ScheduleReboot, storeSet]
  · intro ops
    induction ops with
    | nil => intro st h; simpa using h
    | cons op rest ih =>
      intro st h
      exact ih _ (stepOp_keeps_slot_nonexit st op h)

/-- Witness for C6: from a state with a pending reboot, a dual-stack write
followed by a failed reboot request leaves the slot away from Exit. -/
theorem C6_exit_decision_state_machine_witness :
    agentRebootPending.scheduled_exit_action ≠ exit_action_t.kExitAction_Exit ∧
    (([AgentOp.opWritePref "IPv6",
       AgentOp.opReboot { setCause := some 2, setCommandKey := none, setRequestInstance := none } "k"].foldl
        stepOp (sampleStore, agentRebootPending)).2.scheduled_exit_action ≠
      exit_action_t.kExitAction_Exit) :=
  ⟨by decide,
   C6_exit_decision_state_machine.2.2.2.1
     [AgentOp.opWritePref "IPv6",
      AgentOp.opReboot { setCause := some 2, setCommandKey := none, setRequestInstance := none } "k"]
     (sampleStore, agentRebootPending) (by decide)⟩



/-- The schedule-exit entry point never touches the cached endpoint id. -/
theorem schedule_preserves_endpoint_id (fp : SchedFail) (act : exit_action_t)
    (cause ck : String) (ri : Int) (s : Store) (a : Agent) :
    (DEVICE_LOCAL_AGENT_ScheduleReboot fp act cause ck ri s a).agent.agent_endpoint_id =
      a.agent_endpoint_id := by
  rcases fp with ⟨f1, f2, f3⟩
  cases f1 <;> cases f2 <;> cases f3 <;>
    simp [DEVICE_LOCAL_AGENT_ScheduleReboot, storeSet]

/-- C5: with no vendor hook the synthesized default endpoint id is exactly
os:: followed by the OUI, a dash and the serial number; whichever default is
produced (vendor hook or synthesized), an explicit persisted value overrides
it and is what DEVICE_LOCAL_AGENT_SetDefaults caches; the accessor is a pure
read of the cache, and no post-startup operation modifies the cache. -/
theorem C5_endpoint_id_resolution :
    (∀ oui serial_number : String, serial_number ≠ "" →
      GetDefaultEndpointID none oui serial_number =
        Except.ok ("os::" ++ oui ++ "-" ++ serial_number)) ∧
    (∀ (ser_cb epid_cb : Option (Except UspErr String)) (env : Env)
       (vendor_oui : String) (mac : Except UspErr (List Nat)) (s : Store)
       (a a2 : Agent) (epid : String),
      s.endpointIdOverride = some epid →
      DEVICE_LOCAL_AGENT_SetDefaults ser_cb epid_cb env vendor_oui mac s a =
        Except.ok a2 →
      a2.agent_endpoint_id = epid) ∧
    (∀ a : Agent, DEVICE_LOCAL_AGENT_GetEndpointID a = a.agent_endpoint_id) ∧
    (∀ (st : Store × Agent) (op : AgentOp),
      (stepOp st op).2.agent_endpoint_id = st.2.agent_endpoint_id) := by
  refine ⟨fun oui sn hsn => rfl, ?_, fun a => rfl, ?_⟩
  · intro ser_cb epid_cb env vendor_oui mac s a a2 epid hov hset
    rcases hs : GetDefaultSerialNumber ser_cb env mac with e | dser
    · simp [DEVICE_LOCAL_AGENT_SetDefaults, hs] at hset
    · rcases he : GetDefaultEndpointID epid_cb
          (s.ouiOverride.getD (GetDefaultOUI env vendor_oui))
          (s.serialOverride.getD dser) with e | depid
      · simp [DEVICE_LOCAL_AGENT_SetDefaults, hs, he] at hset
      · simp [DEVICE_LOCAL_AGENT_SetDefaults, hs, he, hov] at hset
        rw [← hset]
  · intro st op
    rcases op with ⟨fp, ck⟩ | ⟨fp, ck⟩ | v | fp
    · simp [stepOp, ScheduleReboot, schedule_preserves_endpoint_id]
    · simp [stepOp, ScheduleFactoryReset, schedule_preserves_endpoint_id]
    · simp only [stepOp, Write_DualStackPreference]
      rcases hv : Validate_DualStackPreference v <;>
        simp_all [NotifyChange_DualStackPreference] <;> split_ifs <;> simp_all
    · simp [stepOp]

/-- Witness for C5: a sample OUI and serial synthesize the literal
os::0044FF-012345. -/
theorem C5_endpoint_id_resolution_witness :
    GetDefaultEndpointID none "0044FF" "012345" = Except.ok "os::0044FF-012345" :=
  C5_endpoint_id_resolution.1 "0044FF" "012345" (by decide)

/-- The conversion loop emits exactly two characters per MAC octet. -/
theorem macDigits_length (l : List Nat) : (macDigits l).length = 2 * l.length := by
  induction l with
  | nil => simp [macDigits]
  | cons v rest ih => simp [macDigits, ih]; omega

/-- The fixed upper-case hex alphabet of the serial-number encoding. -/
theorem hexDigit_mem_alphabet (n : Nat) (h : n < 16) :
    TEXT_UTILS_ValueToHexDigit n ∈ ("0123456789ABCDEF").data := by
  interval_cases n <;> decide

/-- The high nibble extracted at line 721 is below 16. -/
theorem hi_nibble_lt (v : Nat) : (v &&& 0xF0) >>> 4 < 16 := by
  have h1 : v &&& 0xF0 ≤ 0xF0 := Nat.and_le_right
  have h2 : (v &&& 0xF0) >>> 4 ≤ 0xF0 >>> 4 := by
    simp only [Nat.shiftRight_eq_div_pow]
    exact Nat.div_le_div_right h1
  omega

/-- The low nibble extracted at line 722 is below 16. -/
theorem lo_nibble_lt (v : Nat) : v &&& 0x0F < 16 := by
  have h1 : v &&& 0x0F ≤ 0x0F := Nat.and_le_right
  omega

/-- Every character the conversion loop emits is an upper-case hex digit. -/
theorem macDigits_mem (l : List Nat) :
    ∀ c ∈ macDigits l, c ∈ ("0123456789ABCDEF").data := by
  induction l with
  | nil => simp [macDigits]
  | cons v rest ih =>
    intro c hc
    simp only [macDigits, List.mem_cons] at hc
    rcases hc with h | h | h
    · subst h; exact hexDigit_mem_alphabet _ (hi_nibble_lt v)
    · subst h; exact hexDigit_mem_alphabet _ (lo_nibble_lt v)
    · exact ih c h

/-- C8: with no vendor hook and an absent or empty USP_BOARD_SERIAL
override, the default serial number of a 6-byte MAC is a 12-character
string, two hex digits per octet with the most-significant nibble first,
every character drawn from the fixed upper-case hex alphabet, determined by
the MAC bytes alone. -/
theorem C8_serial_from_mac (env : Env) (mac : List Nat)
    (hlen : mac.length = MAC_ADDR_LEN)
    (henv : env.usp_board_serial = none ∨ env.usp_board_serial = some "") :
    ∃ str : String,
      GetDefaultSerialNumber none env (Except.ok mac) = Except.ok str ∧
      str.length = 12 ∧
      str.data = macDigits mac ∧
      (∀ c ∈ str.data, c ∈ ("0123456789ABCDEF").data) := by
  refine ⟨String.mk (macDigits mac), ?_, ?_, rfl, macDigits_mem mac⟩
  · rcases henv with h | h <;>
      simp [GetDefaultSerialNumber, h, serialFromMac]
  · show (macDigits mac).length = 12
    rw [macDigits_length, hlen]; rfl

/-- Witness for C8 at the spec example MAC. -/
theorem C8_serial_from_mac_witness :
    sampleMac.length = MAC_ADDR_LEN ∧
    ∃ str : String,
      GetDefaultSerialNumber none envNone (Except.ok sampleMac) = Except.ok str ∧
      str.length = 12 ∧
      str.data = macDigits sampleMac ∧
      (∀ c ∈ str.data, c ∈ ("0123456789ABCDEF").data) :=
  ⟨by decide, C8_serial_from_mac envNone sampleMac (by decide) (Or.inl rfl)⟩

/-- C9: the dual-stack validator accepts exactly the literals IPv4 and IPv6
and reports the invalid-value error otherwise; a rejected write leaves both
the persisted preference and the cached boolean untouched. -/
theorem C9_dual_stack_validation (v : String) (s : Store) (a : Agent) :
    (Validate_DualStackPreference v = UspErr.ok ↔ (v = "IPv4" ∨ v = "IPv6")) ∧
    (Validate_DualStackPreference v ≠ UspErr.ok →
      Validate_DualStackPreference v = UspErr.invalidValue ∧
      Write_DualStackPreference v s a = (UspErr.invalidValue, s, a)) := by
  by_cases h : v = "IPv4" ∨ v = "IPv6" <;>
    simp_all [Validate_DualStackPreference, Write_DualStackPreference]

/-- Witness for C9 at the rejected candidate Both. -/
theorem C9_dual_stack_validation_witness :
    Validate_DualStackPreference "Both" = UspErr.invalidValue ∧
    Write_DualStackPreference "Both" sampleStore initAgent =
      (UspErr.invalidValue, sampleStore, initAgent) :=
  (C9_dual_stack_validation "Both" sampleStore initAgent).2 (by decide)

/-- C10: both registered operation handlers call the schedule-exit entry
point with the INVALID request instance, so a successful call leaves the
none sentinel in the request-instance slot and the next fault-free
PopulateRebootInfo attributes the reboot to no request instance. -/
theorem C10_operation_handlers_pass_invalid_instance (fp : SchedFail) (ck : String)
    (s : Store) (a : Agent) :
    (ScheduleReboot fp ck s a =
      DEVICE_LOCAL_AGENT_ScheduleReboot fp exit_action_t.kExitAction_Reboot
        "RemoteReboot" ck INVALID s a) ∧
    (ScheduleFactoryReset fp ck s a =
      DEVICE_LOCAL_AGENT_ScheduleReboot fp exit_action_t.kExitAction_FactoryReset
        "RemoteFactoryReset" ck INVALID s a) ∧
    ((ScheduleReboot fp ck s a).err = UspErr.ok →
      (ScheduleReboot fp ck s a).store.rebootRequestInstance = INVALID ∧
      (PopulateRebootInfo noPopFail zeroRebootInfo
          (ScheduleReboot fp ck s a).store).info.request_instance = INVALID) ∧
    ((ScheduleFactoryReset fp ck s a).err = UspErr.ok →
      (ScheduleFactoryReset fp ck s a).store.rebootRequestInstance = INVALID ∧
      (PopulateRebootInfo noPopFail zeroRebootInfo
          (ScheduleFactoryReset fp ck s a).store).info.request_instance = INVALID) := by
  refine ⟨rfl, rfl, ?_, ?_⟩ <;>
  · intro h
    rcases fp with ⟨f1, f2, f3⟩
    cases f1 <;> cases f2 <;> cases f3 <;>
      simp_all [ScheduleReboot, ScheduleFactoryReset,
                DEVICE_LOCAL_AGENT_ScheduleReboot, storeSet,
                PopulateRebootInfo_noPopFail]

/-- Witness for C10: a successful remote reboot leaves the none sentinel for
the next boot to read. -/
theorem C10_operation_handlers_pass_invalid_instance_witness :
    (ScheduleReboot noSchedFail "key123" sampleStore initAgent).store.rebootRequestInstance
      = INVALID ∧
    (PopulateRebootInfo noPopFail zeroRebootInfo
        (ScheduleReboot noSchedFail "key123" sampleStore
          initAgent).store).info.request_instance = INVALID :=
  (C10_operation_handlers_pass_invalid_instance noSchedFail "key123" sampleStore
      initAgent).2.2.1 (by decide)

end Obuspa
